import Mathlib

/-!
Verification development for the mariia-hub-unified control-loop core.

This file embeds, shallowly, the decision logic of
`scripts/auto-scale-monitor.py` (the `AutoScaleMonitor` class) and
`scripts/redis-cluster-manager.py` (the `RedisClusterManager` class), and
proves/refutes the specification's testable properties against it.

Modelling conventions:
* Python `float` fields and literals become `ℚ` (the decision logic only
  compares, adds and divides; no square-root or formatting result ever feeds
  back into a decision);
* Python `int` becomes `ℤ`;
* Python `str` becomes `String`;
* `self.config` is passed explicitly as a configuration record;
* `self._is_in_cooldown` is passed explicitly as `in_cooldown : String → Bool`
  (the source's body, `is_in_cooldown_code`, ignores its argument and returns
  `False`);
* Python float formatting (`f"{x:.1f}"`), used only to build human-readable
  reason strings, is passed explicitly as `fmt : ℚ → String`;
* the float square root (`variance ** 0.5`) in `_calculate_volatility`, whose
  result lands in the `"volatility"` dict entry and is never read by any
  decision, is passed explicitly as `sqrtf : ℚ → ℚ`.
-/

/-! ## Data model: auto-scale-monitor.py -/

/-- Dataclass `ScalingMetrics` (auto-scale-monitor.py, lines 29-39): a
container for one cycle's scaling metrics. The capture timestamp is kept as an
abstract integer; nothing in the decision logic reads it. -/
structure ScalingMetrics where
  cpu_utilization : ℚ
  memory_utilization : ℚ
  request_rate : ℚ
  response_time_p95 : ℚ
  error_rate : ℚ
  queue_depth : ℤ
  active_connections : ℤ
  timestamp : ℤ
deriving Repr, DecidableEq

instance : Inhabited ScalingMetrics := ⟨⟨0, 0, 0, 0, 0, 0, 0, 0⟩⟩

/-- Dataclass `ScalingDecision` (auto-scale-monitor.py, lines 41-49). -/
structure ScalingDecision where
  action : String
  reason : String
  confidence : ℚ
  target_replicas : ℤ
  current_replicas : ℤ
  metrics_used : List String
deriving Repr, DecidableEq

/-- The numeric configuration entries of `AutoScaleMonitor.load_configuration`
(auto-scale-monitor.py, lines 61-77) that the decision logic reads. String
entries (prometheus URL, namespace, deployment name, metrics window) feed only
the query builders, which are external collaborators. -/
structure ScaleConfig where
  min_replicas : ℤ
  max_replicas : ℤ
  scale_up_threshold : ℚ
  scale_down_threshold : ℚ
  scale_up_cooldown : ℤ
  scale_down_cooldown : ℤ
  evaluation_interval : ℤ
  response_time_threshold : ℚ
  error_rate_threshold : ℚ
  request_rate_threshold : ℚ
  queue_depth_threshold : ℤ
deriving Repr, DecidableEq

/-- The default configuration dict (auto-scale-monitor.py, lines 61-77). -/
def defaultScaleConfig : ScaleConfig where
  min_replicas := 3
  max_replicas := 20
  scale_up_threshold := 70
  scale_down_threshold := 30
  scale_up_cooldown := 300
  scale_down_cooldown := 600
  evaluation_interval := 60
  response_time_threshold := 1000
  error_rate_threshold := 5
  request_rate_threshold := 100
  queue_depth_threshold := 100

/-- A user configuration file: each field optionally overrides the default
(`self.config.update(user_config)`, auto-scale-monitor.py line 83). -/
structure ScaleConfigPatch where
  min_replicas : Option ℤ := none
  max_replicas : Option ℤ := none
  scale_up_threshold : Option ℚ := none
  scale_down_threshold : Option ℚ := none
  scale_up_cooldown : Option ℤ := none
  scale_down_cooldown : Option ℤ := none
  evaluation_interval : Option ℤ := none
  response_time_threshold : Option ℚ := none
  error_rate_threshold : Option ℚ := none
  request_rate_threshold : Option ℚ := none
  queue_depth_threshold : Option ℤ := none
deriving Repr, DecidableEq

/-- Python `dict.update`: every key present in the user config replaces the default
(auto-scale-monitor.py line 83). No value is validated, clamped or rejected. -/
def applyScalePatch (base : ScaleConfig) (p : ScaleConfigPatch) : ScaleConfig where
  min_replicas := p.min_replicas.getD base.min_replicas
  max_replicas := p.max_replicas.getD base.max_replicas
  scale_up_threshold := p.scale_up_threshold.getD base.scale_up_threshold
  scale_down_threshold := p.scale_down_threshold.getD base.scale_down_threshold
  scale_up_cooldown := p.scale_up_cooldown.getD base.scale_up_cooldown
  scale_down_cooldown := p.scale_down_cooldown.getD base.scale_down_cooldown
  evaluation_interval := p.evaluation_interval.getD base.evaluation_interval
  response_time_threshold := p.response_time_threshold.getD base.response_time_threshold
  error_rate_threshold := p.error_rate_threshold.getD base.error_rate_threshold
  request_rate_threshold := p.request_rate_threshold.getD base.request_rate_threshold
  queue_depth_threshold := p.queue_depth_threshold.getD base.queue_depth_threshold

/-- Method `AutoScaleMonitor.load_configuration` (auto-scale-monitor.py, lines
59-87): start from the defaults; with no config file, keep them; with a config
file, `sys.exit(1)` if reading/parsing raises (modelled as the `Except.error`
input), otherwise merge the parsed dict over the defaults with no further
checks. -/
def load_configuration (cfgFile : Option (Except String ScaleConfigPatch)) :
    Except String ScaleConfig :=
  match cfgFile with
  | none => .ok defaultScaleConfig
  | some (.error e) => .error e
  | some (.ok patch) => .ok (applyScalePatch defaultScaleConfig patch)

/-! ## VolatilityAnalyzer: analyze_patterns / _calculate_volatility -/

/-- Python `dict.get(key, default)` over the pattern dictionaries
(`Dict[str, float]`), modelled as association lists in insertion order. -/
def dget (d : List (String × ℚ)) (key : String) (default : ℚ) : ℚ :=
  match d.find? (fun kv => kv.1 == key) with
  | some kv => kv.2
  | none => default

/-- Method `AutoScaleMonitor._calculate_volatility` (auto-scale-monitor.py, lines
199-205): population standard deviation; `variance ** 0.5` is the float square
root `sqrtf` of the rational variance. -/
def calculate_volatility (sqrtf : ℚ → ℚ) (values : List ℚ) : ℚ :=
  if values.length < 2 then 0
  else
    let mean := values.sum / values.length
    let variance := (values.map (fun x => (x - mean) ^ (2 : ℕ))).sum / values.length
    sqrtf variance

/-- Method `AutoScaleMonitor.analyze_patterns` (auto-scale-monitor.py, lines
183-197): with fewer than 2 samples the empty dict `{}` is returned;
otherwise each trend is `(metrics[-1].value - metrics[0].value) / len(metrics)`
and the volatility of the CPU series is appended. -/
def analyze_patterns (sqrtf : ℚ → ℚ) (metrics : List ScalingMetrics) :
    List (String × ℚ) :=
  if metrics.length < 2 then []
  else
    let cpu_trend :=
      (metrics.getLastI.cpu_utilization - metrics.headI.cpu_utilization) / metrics.length
    let request_trend :=
      (metrics.getLastI.request_rate - metrics.headI.request_rate) / metrics.length
    let response_time_trend :=
      (metrics.getLastI.response_time_p95 - metrics.headI.response_time_p95) / metrics.length
    [("cpu_trend", cpu_trend),
     ("request_trend", request_trend),
     ("response_time_trend", response_time_trend),
     ("volatility", calculate_volatility sqrtf (metrics.map (·.cpu_utilization)))]

/-! ## ScalingDecisionEngine: make_scaling_decision -/

/-- The local mutable state of `make_scaling_decision`: the decision being
built and the `reasons`, `metrics_used`, `confidence_factors` lists
(auto-scale-monitor.py, lines 210-222). -/
structure DecState where
  decision : ScalingDecision
  reasons : List String
  metrics_used : List String
  confidence_factors : List ℚ
deriving Repr, DecidableEq

/-- The initial decision (auto-scale-monitor.py, lines 211-218). -/
def init_decision (current_replicas : ℤ) : ScalingDecision where
  action := "no_action"
  reason := "All metrics within normal range"
  confidence := 0.5
  target_replicas := current_replicas
  current_replicas := current_replicas
  metrics_used := []

/-- CPU utilization check (auto-scale-monitor.py, lines 224-243): the
`if / elif` pair for high and low CPU. -/
def cpu_utilization_check (cfg : ScaleConfig) (fmt : ℚ → String)
    (metrics : ScalingMetrics) (current_replicas : ℤ) (s : DecState) : DecState :=
  if metrics.cpu_utilization > cfg.scale_up_threshold then
    let target := min (current_replicas + 2) cfg.max_replicas
    let s := { s with
      reasons := s.reasons ++ ["High CPU utilization: " ++ fmt metrics.cpu_utilization ++ "%"],
      metrics_used := s.metrics_used ++ ["cpu_utilization"],
      confidence_factors := s.confidence_factors ++ [0.8] }
    if target > current_replicas then
      { s with decision :=
          { s.decision with action := "scale_up", target_replicas := target } }
    else s
  else if metrics.cpu_utilization < cfg.scale_down_threshold then
    let target := max (current_replicas - 1) cfg.min_replicas
    let s := { s with
      reasons := s.reasons ++ ["Low CPU utilization: " ++ fmt metrics.cpu_utilization ++ "%"],
      metrics_used := s.metrics_used ++ ["cpu_utilization"],
      confidence_factors := s.confidence_factors ++ [0.6] }
    if target < current_replicas then
      { s with decision :=
          { s.decision with action := "scale_down", target_replicas := target } }
    else s
  else s

/-- Response time check (auto-scale-monitor.py, lines 245-254). -/
def response_time_check (cfg : ScaleConfig) (fmt : ℚ → String)
    (metrics : ScalingMetrics) (current_replicas : ℤ) (s : DecState) : DecState :=
  if metrics.response_time_p95 > cfg.response_time_threshold then
    let target := min (current_replicas + 1) cfg.max_replicas
    let s := { s with
      reasons := s.reasons ++ ["High response time: " ++ fmt metrics.response_time_p95 ++ "ms"],
      metrics_used := s.metrics_used ++ ["response_time_p95"],
      confidence_factors := s.confidence_factors ++ [0.7] }
    if target > current_replicas then
      { s with decision := { s.decision with
          action := "scale_up",
          target_replicas := max s.decision.target_replicas target } }
    else s
  else s

/-- Error rate check (auto-scale-monitor.py, lines 256-265). -/
def error_rate_check (cfg : ScaleConfig) (fmt : ℚ → String)
    (metrics : ScalingMetrics) (current_replicas : ℤ) (s : DecState) : DecState :=
  if metrics.error_rate > cfg.error_rate_threshold then
    let target := min (current_replicas + 2) cfg.max_replicas
    let s := { s with
      reasons := s.reasons ++ ["High error rate: " ++ fmt metrics.error_rate ++ "%"],
      metrics_used := s.metrics_used ++ ["error_rate"],
      confidence_factors := s.confidence_factors ++ [0.9] }
    if target > current_replicas then
      { s with decision := { s.decision with
          action := "scale_up",
          target_replicas := max s.decision.target_replicas target } }
    else s
  else s

/-- Request-rate-per-replica check (auto-scale-monitor.py, lines 267-277):
`requests_per_replica = metrics.request_rate / max(current_replicas, 1)`. -/
def request_rate_check (cfg : ScaleConfig) (fmt : ℚ → String)
    (metrics : ScalingMetrics) (current_replicas : ℤ) (s : DecState) : DecState :=
  let requests_per_replica := metrics.request_rate / ((max current_replicas 1 : ℤ) : ℚ)
  if requests_per_replica > cfg.request_rate_threshold then
    let target := min (current_replicas + 2) cfg.max_replicas
    let s := { s with
      reasons := s.reasons ++ ["High request rate per replica: " ++ fmt requests_per_replica ++ " r/s"],
      metrics_used := s.metrics_used ++ ["request_rate"],
      confidence_factors := s.confidence_factors ++ [0.6] }
    if target > current_replicas then
      { s with decision := { s.decision with
          action := "scale_up",
          target_replicas := max s.decision.target_replicas target } }
    else s
  else s

/-- Trend consideration (auto-scale-monitor.py, lines 279-285): if the CPU
trend exceeds 5 and a scale-up is already pending, bump the target by one more
replica, still clamped to `max_replicas`. -/
def cpu_trend_check (cfg : ScaleConfig) (patterns : List (String × ℚ))
    (s : DecState) : DecState :=
  if dget patterns "cpu_trend" 0 > 5 then
    if s.decision.action = "scale_up" then
      { s with
        decision := { s.decision with
          target_replicas := min (s.decision.target_replicas + 1) cfg.max_replicas },
        reasons := s.reasons ++ ["CPU utilization trending upward"],
        metrics_used := s.metrics_used ++ ["cpu_trend"],
        confidence_factors := s.confidence_factors ++ [0.4] }
    else s
  else s

/-- Scale-up cooldown veto (auto-scale-monitor.py, lines 288-292): a pending
scale-up inside its cooldown window is overridden to `no_action` with reason
"Scale up action blocked by cooldown period" and confidence 0.9. -/
def cooldown_check_up (in_cooldown : String → Bool) (s : DecState) : DecState :=
  if in_cooldown "scale_up" then
    if s.decision.action = "scale_up" then
      { s with decision := { s.decision with
          action := "no_action",
          reason := "Scale up action blocked by cooldown period",
          confidence := 0.9 } }
    else s
  else s

/-- Scale-down cooldown veto (auto-scale-monitor.py, lines 294-298),
symmetric to the scale-up veto. -/
def cooldown_check_down (in_cooldown : String → Bool) (s : DecState) : DecState :=
  if in_cooldown "scale_down" then
    if s.decision.action = "scale_down" then
      { s with decision := { s.decision with
          action := "no_action",
          reason := "Scale down action blocked by cooldown period",
          confidence := 0.9 } }
    else s
  else s

/-- Both cooldown vetoes in source order (auto-scale-monitor.py, lines
287-298). -/
def cooldown_check (in_cooldown : String → Bool) (s : DecState) : DecState :=
  cooldown_check_down in_cooldown (cooldown_check_up in_cooldown s)

/-- Final decision-property update (auto-scale-monitor.py, lines 300-304):
when any reason accumulated, overwrite reason, metrics_used and confidence
(mean of the fired factors). -/
def finalize_decision (s : DecState) : ScalingDecision :=
  if s.reasons ≠ [] then
    { s.decision with
      reason := String.intercalate "; " s.reasons,
      metrics_used := s.metrics_used,
      confidence := s.confidence_factors.sum / (s.confidence_factors.length : ℚ) }
  else s.decision

/-- Method `AutoScaleMonitor._is_in_cooldown` (auto-scale-monitor.py, lines 308-312):
the source returns `False` unconditionally ("For simplicity, returning False
here"), for both actions, regardless of any recorded action timestamps. -/
def is_in_cooldown_code : String → Bool := fun _ => false

/-- Method `AutoScaleMonitor.make_scaling_decision` (auto-scale-monitor.py, lines
207-306): the five signal checks, the trend bump, the cooldown vetoes, and the
final reason/confidence update, in source order. -/
def make_scaling_decision (cfg : ScaleConfig) (fmt : ℚ → String)
    (in_cooldown : String → Bool) (metrics : ScalingMetrics)
    (current_replicas : ℤ) (patterns : List (String × ℚ)) : ScalingDecision :=
  finalize_decision
    (cooldown_check in_cooldown
      (cpu_trend_check cfg patterns
        (request_rate_check cfg fmt metrics current_replicas
          (error_rate_check cfg fmt metrics current_replicas
            (response_time_check cfg fmt metrics current_replicas
              (cpu_utilization_check cfg fmt metrics current_replicas
                { decision := init_decision current_replicas,
                  reasons := [], metrics_used := [], confidence_factors := [] }))))))

/-- A trivial float-formatting stand-in used to instantiate `fmt` at concrete
inputs. -/
def fmt0 : ℚ → String := fun _ => ""

/-- A trivial float square root stand-in used to instantiate `sqrtf` at
concrete inputs. -/
def sqrtf0 : ℚ → ℚ := fun _ => 0

/-! ## Data model: redis-cluster-manager.py -/

/-- Dataclass `RedisNodeInfo` (redis-cluster-manager.py, lines 30-41). -/
structure RedisNodeInfo where
  host : String
  port : ℤ
  role : String
  connected : Bool
  memory_usage : ℚ
  cpu_usage : ℚ
  connections : ℤ
  lag : ℤ := 0
  last_seen : Option ℤ := none
deriving Repr, DecidableEq

/-- Dataclass `ClusterStatus` (redis-cluster-manager.py, lines 43-52). -/
structure ClusterStatus where
  master_host : String
  master_port : ℤ
  replicas : List RedisNodeInfo
  total_memory : ℚ
  total_connections : ℤ
  is_healthy : Bool
  failover_needed : Bool
deriving Repr, DecidableEq

/-- The numeric/boolean configuration entries of
`RedisClusterManager.load_configuration` (redis-cluster-manager.py, lines
64-81) that the health/failover logic reads. -/
structure RedisConfig where
  master_port : ℤ
  replica_port : ℤ
  health_check_interval : ℤ
  failover_timeout : ℤ
  replication_lag_threshold : ℤ
  memory_threshold : ℚ
  connection_threshold : ℤ
  auto_failover : Bool
deriving Repr, DecidableEq

/-- The default configuration dict (redis-cluster-manager.py, lines 64-81). -/
def defaultRedisConfig : RedisConfig where
  master_port := 6379
  replica_port := 6379
  health_check_interval := 10
  failover_timeout := 60
  replication_lag_threshold := 30
  memory_threshold := 80
  connection_threshold := 1000
  auto_failover := true

/-- Method `RedisClusterManager._check_failover_needed` (redis-cluster-manager.py,
lines 295-324): master down, any connected replica over the lag threshold,
master memory over the threshold with at least one connected replica, or
master connections over the threshold with positive connected-replica
capacity. -/
def check_failover_needed (cfg : RedisConfig) (master : RedisNodeInfo)
    (replicas : List RedisNodeInfo) : Bool :=
  if !master.connected then true
  else if replicas.any (fun r => r.connected && r.lag > cfg.replication_lag_threshold) then true
  else if master.memory_usage > cfg.memory_threshold &&
          (replicas.filter (fun r => r.connected)).length > 0 then true
  else if master.connections > cfg.connection_threshold &&
          ((replicas.filter (fun r => r.connected)).map (fun r => r.connections)).sum > 0 then true
  else false

/-- Method `RedisClusterManager.get_cluster_status` (redis-cluster-manager.py, lines
221-293), as a function of the master service's cluster IP, the polled master
`RedisNodeInfo`, and the `RedisNodeInfo` that polling each replica endpoint
would produce. When the master node is not connected the function returns
early with an empty, unhealthy status (lines 232-242) and the replica
endpoints are never polled; the same empty status is produced by the
exception handler (lines 283-293). -/
def get_cluster_status (cfg : RedisConfig) (master_host : String)
    (master_info : RedisNodeInfo) (replica_infos : List RedisNodeInfo) :
    ClusterStatus :=
  if !master_info.connected then
    { master_host := "", master_port := 0, replicas := [], total_memory := 0,
      total_connections := 0, is_healthy := false, failover_needed := true }
  else
    let total_memory :=
      replica_infos.foldl (fun acc r => acc + r.memory_usage) master_info.memory_usage
    let total_connections :=
      replica_infos.foldl (fun acc r => acc + r.connections) master_info.connections
    let failover_needed := check_failover_needed cfg master_info replica_infos
    { master_host := master_host,
      master_port := cfg.master_port,
      replicas := replica_infos,
      total_memory := total_memory,
      total_connections := total_connections,
      is_healthy := master_info.connected && !failover_needed,
      failover_needed := failover_needed }

/-- The lexicographic candidate order used by `perform_failover`
(redis-cluster-manager.py, line 346): Python tuple comparison
`(r.lag, r.memory_usage) < (best.lag, best.memory_usage)`. -/
def node_key_lt (a b : RedisNodeInfo) : Prop :=
  a.lag < b.lag ∨ (a.lag = b.lag ∧ a.memory_usage < b.memory_usage)

instance : DecidableRel node_key_lt := fun a b => by
  unfold node_key_lt; infer_instance

/-- Non-strict version of `node_key_lt`, used to state minimality. -/
def node_key_le (a b : RedisNodeInfo) : Prop :=
  a.lag < b.lag ∨ (a.lag = b.lag ∧ a.memory_usage ≤ b.memory_usage)

instance : DecidableRel node_key_le := fun a b => by
  unfold node_key_le; infer_instance

/-- The candidate-selection step of `RedisClusterManager.perform_failover`
(redis-cluster-manager.py, lines 339-346): filter the connected replicas;
with none, no candidate is produced (`return False`); otherwise
`min(healthy_replicas, key=lambda r: (r.lag, r.memory_usage))` — Python's
`min` keeps the earliest element among key-ties: one comparison step keeps the
earlier element unless the later one is strictly smaller. -/
def pick_candidate (best r : RedisNodeInfo) : RedisNodeInfo :=
  if node_key_lt r best then r else best

/-- The filter-then-minimize candidate selection of `perform_failover`
(redis-cluster-manager.py, lines 339-346). -/
def select_failover_candidate (replicas : List RedisNodeInfo) :
    Option RedisNodeInfo :=
  match replicas.filter (fun r => r.connected) with
  | [] => none
  | h :: t => some (t.foldl pick_candidate h)

/-! ## Behavior of the decision pipeline steps -/

/-- The CPU check only changes the decision as follows. -/
theorem cpu_utilization_check_decision (cfg : ScaleConfig) (fmt : ℚ → String)
    (m : ScalingMetrics) (c : ℤ) (s : DecState) :
    (cpu_utilization_check cfg fmt m c s).decision =
      if m.cpu_utilization > cfg.scale_up_threshold then
        (if min (c + 2) cfg.max_replicas > c then
          { s.decision with
            action := "scale_up",
            target_replicas := min (c + 2) cfg.max_replicas }
         else s.decision)
      else if m.cpu_utilization < cfg.scale_down_threshold then
        (if max (c - 1) cfg.min_replicas < c then
          { s.decision with
            action := "scale_down",
            target_replicas := max (c - 1) cfg.min_replicas }
         else s.decision)
      else s.decision := by
  unfold cpu_utilization_check
  dsimp only
  split_ifs <;> rfl

/-- The response time check only changes the decision as follows. -/
theorem response_time_check_decision (cfg : ScaleConfig) (fmt : ℚ → String)
    (m : ScalingMetrics) (c : ℤ) (s : DecState) :
    (response_time_check cfg fmt m c s).decision =
      if m.response_time_p95 > cfg.response_time_threshold then
        (if min (c + 1) cfg.max_replicas > c then
          { s.decision with
            action := "scale_up",
            target_replicas := max s.decision.target_replicas (min (c + 1) cfg.max_replicas) }
         else s.decision)
      else s.decision := by
  unfold response_time_check
  dsimp only
  split_ifs <;> rfl

/-- The error rate check only changes the decision as follows. -/
theorem error_rate_check_decision (cfg : ScaleConfig) (fmt : ℚ → String)
    (m : ScalingMetrics) (c : ℤ) (s : DecState) :
    (error_rate_check cfg fmt m c s).decision =
      if m.error_rate > cfg.error_rate_threshold then
        (if min (c + 2) cfg.max_replicas > c then
          { s.decision with
            action := "scale_up",
            target_replicas := max s.decision.target_replicas (min (c + 2) cfg.max_replicas) }
         else s.decision)
      else s.decision := by
  unfold error_rate_check
  dsimp only
  split_ifs <;> rfl

/-- The request rate check only changes the decision as follows. -/
theorem request_rate_check_decision (cfg : ScaleConfig) (fmt : ℚ → String)
    (m : ScalingMetrics) (c : ℤ) (s : DecState) :
    (request_rate_check cfg fmt m c s).decision =
      if m.request_rate / ((max c 1 : ℤ) : ℚ) > cfg.request_rate_threshold then
        (if min (c + 2) cfg.max_replicas > c then
          { s.decision with
            action := "scale_up",
            target_replicas := max s.decision.target_replicas (min (c + 2) cfg.max_replicas) }
         else s.decision)
      else s.decision := by
  unfold request_rate_check
  dsimp only
  split_ifs <;> rfl

/-- The trend consideration only changes the decision as follows. -/
theorem cpu_trend_check_decision (cfg : ScaleConfig) (patterns : List (String × ℚ))
    (s : DecState) :
    (cpu_trend_check cfg patterns s).decision =
      if dget patterns "cpu_trend" 0 > 5 then
        (if s.decision.action = "scale_up" then
          { s.decision with
            target_replicas := min (s.decision.target_replicas + 1) cfg.max_replicas }
         else s.decision)
      else s.decision := by
  unfold cpu_trend_check
  dsimp only
  split_ifs <;> rfl

/-- The cooldown vetoes never change the target replica count. -/
theorem cooldown_check_target (g : String → Bool) (s : DecState) :
    (cooldown_check g s).decision.target_replicas = s.decision.target_replicas := by
  unfold cooldown_check cooldown_check_down cooldown_check_up
  split_ifs <;> rfl

/-- With the source's `_is_in_cooldown` (constantly `False`), the cooldown
step is the identity. -/
theorem cooldown_check_code (s : DecState) :
    cooldown_check is_in_cooldown_code s = s := by
  unfold cooldown_check cooldown_check_down cooldown_check_up is_in_cooldown_code
  simp

/-- The final update never changes the action. -/
theorem finalize_decision_action (s : DecState) :
    (finalize_decision s).action = s.decision.action := by
  unfold finalize_decision
  split_ifs <;> rfl

/-- The final update never changes the target replica count. -/
theorem finalize_decision_target (s : DecState) :
    (finalize_decision s).target_replicas = s.decision.target_replicas := by
  unfold finalize_decision
  split_ifs <;> rfl


/-! ## Target-replica invariants of the decision pipeline -/

/-- Invariant maintained by the four threshold checks: the target stays within
one step below and two steps above the current count; a pending `scale_up`
decision has a target strictly above the current count and within
`max_replicas`; any other pending decision has a target at most the current
count. -/
def StepInv (cfg : ScaleConfig) (c : ℤ) (d : ScalingDecision) : Prop :=
  c - 1 ≤ d.target_replicas ∧ d.target_replicas ≤ c + 2 ∧
  (d.action = "scale_up" → c < d.target_replicas ∧ d.target_replicas ≤ cfg.max_replicas) ∧
  (d.action ≠ "scale_up" → d.target_replicas ≤ c)

theorem stepInv_init (cfg : ScaleConfig) (c : ℤ) : StepInv cfg c (init_decision c) := by
  unfold StepInv init_decision
  refine ⟨?_, ?_, ?_, ?_⟩ <;> simp

theorem stepInv_cpu (cfg : ScaleConfig) (fmt : ℚ → String) (m : ScalingMetrics)
    (c : ℤ) (s : DecState) (hs : StepInv cfg c s.decision) :
    StepInv cfg c (cpu_utilization_check cfg fmt m c s).decision := by
  rw [cpu_utilization_check_decision]
  unfold StepInv at hs ⊢
  split_ifs with h1 h2 h3 h4 <;> simp_all <;> omega

theorem stepInv_rt (cfg : ScaleConfig) (fmt : ℚ → String) (m : ScalingMetrics)
    (c : ℤ) (s : DecState) (hs : StepInv cfg c s.decision) :
    StepInv cfg c (response_time_check cfg fmt m c s).decision := by
  rw [response_time_check_decision]
  unfold StepInv at hs ⊢
  obtain ⟨hl, hu, hup, hother⟩ := hs
  split_ifs with h1 h2
  · by_cases ha : s.decision.action = "scale_up"
    · obtain ⟨hc, hm⟩ := hup ha
      refine ⟨by simp; omega, by simp; omega, fun _ => by simp; omega, fun h => ?_⟩
      simp at h
    · have := hother ha
      refine ⟨by simp; omega, by simp; omega, fun _ => by simp; omega, fun h => ?_⟩
      simp at h
  · exact ⟨hl, hu, hup, hother⟩
  · exact ⟨hl, hu, hup, hother⟩

theorem stepInv_er (cfg : ScaleConfig) (fmt : ℚ → String) (m : ScalingMetrics)
    (c : ℤ) (s : DecState) (hs : StepInv cfg c s.decision) :
    StepInv cfg c (error_rate_check cfg fmt m c s).decision := by
  rw [error_rate_check_decision]
  unfold StepInv at hs ⊢
  obtain ⟨hl, hu, hup, hother⟩ := hs
  split_ifs with h1 h2
  · by_cases ha : s.decision.action = "scale_up"
    · obtain ⟨hc, hm⟩ := hup ha
      refine ⟨by simp; omega, by simp; omega, fun _ => by simp; omega, fun h => ?_⟩
      simp at h
    · have := hother ha
      refine ⟨by simp; omega, by simp; omega, fun _ => by simp; omega, fun h => ?_⟩
      simp at h
  · exact ⟨hl, hu, hup, hother⟩
  · exact ⟨hl, hu, hup, hother⟩

theorem stepInv_rr (cfg : ScaleConfig) (fmt : ℚ → String) (m : ScalingMetrics)
    (c : ℤ) (s : DecState) (hs : StepInv cfg c s.decision) :
    StepInv cfg c (request_rate_check cfg fmt m c s).decision := by
  rw [request_rate_check_decision]
  unfold StepInv at hs ⊢
  obtain ⟨hl, hu, hup, hother⟩ := hs
  split_ifs with h1 h2
  · by_cases ha : s.decision.action = "scale_up"
    · obtain ⟨hc, hm⟩ := hup ha
      refine ⟨by simp; omega, by simp; omega, fun _ => by simp; omega, fun h => ?_⟩
      simp at h
    · have := hother ha
      refine ⟨by simp; omega, by simp; omega, fun _ => by simp; omega, fun h => ?_⟩
      simp at h
  · exact ⟨hl, hu, hup, hother⟩
  · exact ⟨hl, hu, hup, hother⟩

theorem trend_bounds (cfg : ScaleConfig) (p : List (String × ℚ)) (c : ℤ)
    (s : DecState) (hs : StepInv cfg c s.decision) :
    c - 1 ≤ (cpu_trend_check cfg p s).decision.target_replicas ∧
    (cpu_trend_check cfg p s).decision.target_replicas ≤ c + 3 := by
  rw [cpu_trend_check_decision]
  obtain ⟨hl, hu, hup, hother⟩ := hs
  split_ifs with h1 h2
  · obtain ⟨hc, hm⟩ := hup h2
    simp
    omega
  · exact ⟨hl, by omega⟩
  · exact ⟨hl, by omega⟩

/-- C10: Bounded step size: for every configuration, cooldown gate, metric
sample, trend dictionary and current replica count c, one invocation of
`make_scaling_decision` never proposes fewer than c - 1 or more than c + 3
target replicas. -/
theorem make_scaling_decision_step_bounded (cfg : ScaleConfig) (fmt : ℚ → String)
    (gate : String → Bool) (m : ScalingMetrics) (p : List (String × ℚ)) (c : ℤ) :
    c - 1 ≤ (make_scaling_decision cfg fmt gate m c p).target_replicas ∧
    (make_scaling_decision cfg fmt gate m c p).target_replicas ≤ c + 3 := by
  unfold make_scaling_decision
  rw [finalize_decision_target, cooldown_check_target]
  exact trend_bounds cfg p c _
    (stepInv_rr cfg fmt m c _ (stepInv_er cfg fmt m c _
      (stepInv_rt cfg fmt m c _ (stepInv_cpu cfg fmt m c _ (stepInv_init cfg c)))))

/-- The clamping invariant: the pending target lies in
`[min_replicas, max_replicas]`. -/
def ClampInv (cfg : ScaleConfig) (d : ScalingDecision) : Prop :=
  cfg.min_replicas ≤ d.target_replicas ∧ d.target_replicas ≤ cfg.max_replicas

theorem clampInv_cpu (cfg : ScaleConfig) (fmt : ℚ → String) (m : ScalingMetrics)
    (c : ℤ) (hmin : cfg.min_replicas ≤ c) (hmax : c ≤ cfg.max_replicas)
    (s : DecState) (hs : ClampInv cfg s.decision) :
    ClampInv cfg (cpu_utilization_check cfg fmt m c s).decision := by
  rw [cpu_utilization_check_decision]
  unfold ClampInv at hs ⊢
  split_ifs <;> simp_all <;> omega

theorem clampInv_rt (cfg : ScaleConfig) (fmt : ℚ → String) (m : ScalingMetrics)
    (c : ℤ) (hmin : cfg.min_replicas ≤ c) (hmax : c ≤ cfg.max_replicas)
    (s : DecState) (hs : ClampInv cfg s.decision) :
    ClampInv cfg (response_time_check cfg fmt m c s).decision := by
  rw [response_time_check_decision]
  unfold ClampInv at hs ⊢
  split_ifs <;> simp_all <;> omega

theorem clampInv_er (cfg : ScaleConfig) (fmt : ℚ → String) (m : ScalingMetrics)
    (c : ℤ) (hmin : cfg.min_replicas ≤ c) (hmax : c ≤ cfg.max_replicas)
    (s : DecState) (hs : ClampInv cfg s.decision) :
    ClampInv cfg (error_rate_check cfg fmt m c s).decision := by
  rw [error_rate_check_decision]
  unfold ClampInv at hs ⊢
  split_ifs <;> simp_all <;> omega

theorem clampInv_rr (cfg : ScaleConfig) (fmt : ℚ → String) (m : ScalingMetrics)
    (c : ℤ) (hmin : cfg.min_replicas ≤ c) (hmax : c ≤ cfg.max_replicas)
    (s : DecState) (hs : ClampInv cfg s.decision) :
    ClampInv cfg (request_rate_check cfg fmt m c s).decision := by
  rw [request_rate_check_decision]
  unfold ClampInv at hs ⊢
  split_ifs <;> simp_all <;> omega

theorem clampInv_trend (cfg : ScaleConfig) (p : List (String × ℚ))
    (hminmax : cfg.min_replicas ≤ cfg.max_replicas)
    (s : DecState) (hs : ClampInv cfg s.decision) :
    ClampInv cfg (cpu_trend_check cfg p s).decision := by
  rw [cpu_trend_check_decision]
  unfold ClampInv at hs ⊢
  split_ifs <;> simp_all <;> omega

/-- C1 (amended): whenever the current replica count is itself within
`[min_replicas, max_replicas]`, every decision produced by
`make_scaling_decision` has its target clamped to
`[min_replicas, max_replicas]`, for every configuration, cooldown gate,
metric sample and trend dictionary. -/
theorem make_scaling_decision_target_clamped (cfg : ScaleConfig) (fmt : ℚ → String)
    (gate : String → Bool) (m : ScalingMetrics) (p : List (String × ℚ)) (c : ℤ)
    (hmin : cfg.min_replicas ≤ c) (hmax : c ≤ cfg.max_replicas) :
    cfg.min_replicas ≤ (make_scaling_decision cfg fmt gate m c p).target_replicas ∧
    (make_scaling_decision cfg fmt gate m c p).target_replicas ≤ cfg.max_replicas := by
  unfold make_scaling_decision
  rw [finalize_decision_target, cooldown_check_target]
  exact clampInv_trend cfg p (le_trans hmin hmax) _
    (clampInv_rr cfg fmt m c hmin hmax _ (clampInv_er cfg fmt m c hmin hmax _
      (clampInv_rt cfg fmt m c hmin hmax _ (clampInv_cpu cfg fmt m c hmin hmax _
        ⟨hmin, hmax⟩))))

/-- Witness for the amended C1 at a concrete input: with the default
configuration, current replicas 5 and an all-zero sample, the produced target
lies within [3, 20]. -/
theorem make_scaling_decision_target_clamped_witness :
    defaultScaleConfig.min_replicas ≤
      (make_scaling_decision defaultScaleConfig fmt0 is_in_cooldown_code
        ⟨0, 0, 0, 0, 0, 0, 0, 0⟩ 5 []).target_replicas ∧
    (make_scaling_decision defaultScaleConfig fmt0 is_in_cooldown_code
        ⟨0, 0, 0, 0, 0, 0, 0, 0⟩ 5 []).target_replicas ≤
      defaultScaleConfig.max_replicas :=
  make_scaling_decision_target_clamped defaultScaleConfig fmt0 is_in_cooldown_code
    ⟨0, 0, 0, 0, 0, 0, 0, 0⟩ [] 5 (by norm_num [defaultScaleConfig])
    (by norm_num [defaultScaleConfig])

/-- C1 counterexample: the claim as stated fails. With the default
configuration (min_replicas = 3), current replicas 1 and an all-zero sample
(every metric nominal, CPU below the scale-down threshold but the scale-down
target max(c-1, min) = 3 is not below c = 1), the decision keeps
target_replicas = 1 < min_replicas: the target is not clamped into
[min_replicas, max_replicas]. -/
theorem make_scaling_decision_target_below_min :
    (make_scaling_decision defaultScaleConfig fmt0 is_in_cooldown_code
      ⟨0, 0, 0, 0, 0, 0, 0, 0⟩ 1 []).target_replicas = 1 ∧
    defaultScaleConfig.min_replicas = 3 := by
  constructor
  · norm_num [make_scaling_decision, cpu_utilization_check, response_time_check,
      error_rate_check, request_rate_check, cpu_trend_check, cooldown_check,
      cooldown_check_up, cooldown_check_down, finalize_decision, init_decision,
      is_in_cooldown_code, dget, defaultScaleConfig, fmt0]
  · norm_num [defaultScaleConfig]

/-! ## Step behavior when a signal does / does not fire -/

theorem cpu_check_up_fired (cfg : ScaleConfig) (fmt : ℚ → String) (m : ScalingMetrics)
    (c : ℤ) (s : DecState) (h1 : m.cpu_utilization > cfg.scale_up_threshold)
    (h2 : min (c + 2) cfg.max_replicas > c) :
    cpu_utilization_check cfg fmt m c s =
      { decision := { s.decision with
          action := "scale_up", target_replicas := min (c + 2) cfg.max_replicas },
        reasons := s.reasons ++ ["High CPU utilization: " ++ fmt m.cpu_utilization ++ "%"],
        metrics_used := s.metrics_used ++ ["cpu_utilization"],
        confidence_factors := s.confidence_factors ++ [0.8] } := by
  unfold cpu_utilization_check
  dsimp only
  rw [if_pos h1, if_pos h2]

theorem cpu_check_down_vote (cfg : ScaleConfig) (fmt : ℚ → String) (m : ScalingMetrics)
    (c : ℤ) (s : DecState) (h1 : ¬ m.cpu_utilization > cfg.scale_up_threshold)
    (h2 : m.cpu_utilization < cfg.scale_down_threshold) :
    cpu_utilization_check cfg fmt m c s =
      (if max (c - 1) cfg.min_replicas < c then
        { decision := { s.decision with
            action := "scale_down", target_replicas := max (c - 1) cfg.min_replicas },
          reasons := s.reasons ++ ["Low CPU utilization: " ++ fmt m.cpu_utilization ++ "%"],
          metrics_used := s.metrics_used ++ ["cpu_utilization"],
          confidence_factors := s.confidence_factors ++ [0.6] }
       else
        { decision := s.decision,
          reasons := s.reasons ++ ["Low CPU utilization: " ++ fmt m.cpu_utilization ++ "%"],
          metrics_used := s.metrics_used ++ ["cpu_utilization"],
          confidence_factors := s.confidence_factors ++ [0.6] }) := by
  unfold cpu_utilization_check
  dsimp only
  rw [if_neg h1, if_pos h2]

theorem response_time_check_id (cfg : ScaleConfig) (fmt : ℚ → String) (m : ScalingMetrics)
    (c : ℤ) (s : DecState) (h : ¬ m.response_time_p95 > cfg.response_time_threshold) :
    response_time_check cfg fmt m c s = s := by
  unfold response_time_check
  dsimp only
  rw [if_neg h]

theorem response_time_check_fired (cfg : ScaleConfig) (fmt : ℚ → String) (m : ScalingMetrics)
    (c : ℤ) (s : DecState) (h1 : m.response_time_p95 > cfg.response_time_threshold)
    (h2 : min (c + 1) cfg.max_replicas > c) :
    response_time_check cfg fmt m c s =
      { decision := { s.decision with
          action := "scale_up",
          target_replicas := max s.decision.target_replicas (min (c + 1) cfg.max_replicas) },
        reasons := s.reasons ++ ["High response time: " ++ fmt m.response_time_p95 ++ "ms"],
        metrics_used := s.metrics_used ++ ["response_time_p95"],
        confidence_factors := s.confidence_factors ++ [0.7] } := by
  unfold response_time_check
  dsimp only
  rw [if_pos h1, if_pos h2]

theorem error_rate_check_id (cfg : ScaleConfig) (fmt : ℚ → String) (m : ScalingMetrics)
    (c : ℤ) (s : DecState) (h : ¬ m.error_rate > cfg.error_rate_threshold) :
    error_rate_check cfg fmt m c s = s := by
  unfold error_rate_check
  dsimp only
  rw [if_neg h]

theorem error_rate_check_fired (cfg : ScaleConfig) (fmt : ℚ → String) (m : ScalingMetrics)
    (c : ℤ) (s : DecState) (h1 : m.error_rate > cfg.error_rate_threshold)
    (h2 : min (c + 2) cfg.max_replicas > c) :
    error_rate_check cfg fmt m c s =
      { decision := { s.decision with
          action := "scale_up",
          target_replicas := max s.decision.target_replicas (min (c + 2) cfg.max_replicas) },
        reasons := s.reasons ++ ["High error rate: " ++ fmt m.error_rate ++ "%"],
        metrics_used := s.metrics_used ++ ["error_rate"],
        confidence_factors := s.confidence_factors ++ [0.9] } := by
  unfold error_rate_check
  dsimp only
  rw [if_pos h1, if_pos h2]

theorem request_rate_check_id (cfg : ScaleConfig) (fmt : ℚ → String) (m : ScalingMetrics)
    (c : ℤ) (s : DecState)
    (h : ¬ m.request_rate / ((max c 1 : ℤ) : ℚ) > cfg.request_rate_threshold) :
    request_rate_check cfg fmt m c s = s := by
  unfold request_rate_check
  dsimp only
  rw [if_neg h]

theorem request_rate_check_fired (cfg : ScaleConfig) (fmt : ℚ → String) (m : ScalingMetrics)
    (c : ℤ) (s : DecState)
    (h1 : m.request_rate / ((max c 1 : ℤ) : ℚ) > cfg.request_rate_threshold)
    (h2 : min (c + 2) cfg.max_replicas > c) :
    request_rate_check cfg fmt m c s =
      { decision := { s.decision with
          action := "scale_up",
          target_replicas := max s.decision.target_replicas (min (c + 2) cfg.max_replicas) },
        reasons := s.reasons ++
          ["High request rate per replica: " ++ fmt (m.request_rate / ((max c 1 : ℤ) : ℚ)) ++ " r/s"],
        metrics_used := s.metrics_used ++ ["request_rate"],
        confidence_factors := s.confidence_factors ++ [0.6] } := by
  unfold request_rate_check
  dsimp only
  rw [if_pos h1, if_pos h2]

theorem cpu_trend_check_id (cfg : ScaleConfig) (p : List (String × ℚ)) (s : DecState)
    (h : ¬ dget p "cpu_trend" 0 > 5) :
    cpu_trend_check cfg p s = s := by
  unfold cpu_trend_check
  rw [if_neg h]

theorem cpu_trend_check_fired (cfg : ScaleConfig) (p : List (String × ℚ)) (s : DecState)
    (h1 : dget p "cpu_trend" 0 > 5) (h2 : s.decision.action = "scale_up") :
    cpu_trend_check cfg p s =
      { decision := { s.decision with
          target_replicas := min (s.decision.target_replicas + 1) cfg.max_replicas },
        reasons := s.reasons ++ ["CPU utilization trending upward"],
        metrics_used := s.metrics_used ++ ["cpu_trend"],
        confidence_factors := s.confidence_factors ++ [0.4] } := by
  unfold cpu_trend_check
  rw [if_pos h1, if_pos h2]

/-! ## C6: high CPU with all other signals nominal -/

/-- C6 (amended): with the default configuration, CPU at 90% (above the 70%
scale-up threshold) and every other signal nominal, the decision is
`scale_up` with target `min(c + 2, max_replicas)` and confidence 0.8 —
provided the current replica count is below `max_replicas`. (At
`c = max_replicas` the proposed target does not exceed c, so the code leaves
the decision at `no_action`; see the counterexample.) -/
theorem cpu_high_scales_up_below_max (fmt : ℚ → String) (m : ScalingMetrics)
    (p : List (String × ℚ)) (c : ℤ)
    (hcpu : m.cpu_utilization = 90)
    (hrt : m.response_time_p95 ≤ defaultScaleConfig.response_time_threshold)
    (her : m.error_rate ≤ defaultScaleConfig.error_rate_threshold)
    (hrr : m.request_rate / ((max c 1 : ℤ) : ℚ) ≤ defaultScaleConfig.request_rate_threshold)
    (htr : dget p "cpu_trend" 0 ≤ 5)
    (hc : c < defaultScaleConfig.max_replicas) :
    (make_scaling_decision defaultScaleConfig fmt is_in_cooldown_code m c p).action
        = "scale_up" ∧
    (make_scaling_decision defaultScaleConfig fmt is_in_cooldown_code m c p).target_replicas
        = min (c + 2) defaultScaleConfig.max_replicas ∧
    (make_scaling_decision defaultScaleConfig fmt is_in_cooldown_code m c p).confidence
        = 0.8 := by
  have h1 : m.cpu_utilization > defaultScaleConfig.scale_up_threshold := by
    rw [hcpu]; norm_num [defaultScaleConfig]
  have h2 : min (c + 2) defaultScaleConfig.max_replicas > c := by omega
  unfold make_scaling_decision
  rw [cpu_check_up_fired defaultScaleConfig fmt m c _ h1 h2,
    response_time_check_id defaultScaleConfig fmt m c _ (not_lt.mpr hrt),
    error_rate_check_id defaultScaleConfig fmt m c _ (not_lt.mpr her),
    request_rate_check_id defaultScaleConfig fmt m c _ (not_lt.mpr hrr),
    cpu_trend_check_id defaultScaleConfig p _ (not_lt.mpr htr),
    cooldown_check_code]
  unfold finalize_decision
  norm_num [init_decision]

/-- Witness for C6 at a concrete input: CPU 90%, all other metrics zero,
current replicas 5, default configuration. -/
theorem cpu_high_scales_up_below_max_witness :
    (make_scaling_decision defaultScaleConfig fmt0 is_in_cooldown_code
        ⟨90, 0, 0, 0, 0, 0, 0, 0⟩ 5 []).action = "scale_up" ∧
    (make_scaling_decision defaultScaleConfig fmt0 is_in_cooldown_code
        ⟨90, 0, 0, 0, 0, 0, 0, 0⟩ 5 []).target_replicas
      = min (5 + 2) defaultScaleConfig.max_replicas ∧
    (make_scaling_decision defaultScaleConfig fmt0 is_in_cooldown_code
        ⟨90, 0, 0, 0, 0, 0, 0, 0⟩ 5 []).confidence = 0.8 :=
  cpu_high_scales_up_below_max fmt0 ⟨90, 0, 0, 0, 0, 0, 0, 0⟩ [] 5 rfl
    (by norm_num [defaultScaleConfig]) (by norm_num [defaultScaleConfig])
    (by norm_num [defaultScaleConfig]) (by norm_num [dget])
    (by norm_num [defaultScaleConfig])

/-- C6 counterexample: the claim as stated ("for every replica count c")
fails at c = max_replicas = 20. With CPU 90% and every other metric zero the
decision at 20 current replicas is `no_action`, not `scale_up`, because the
proposed target min(20 + 2, 20) = 20 is not strictly above 20. -/
theorem cpu_high_no_action_at_max :
    (make_scaling_decision defaultScaleConfig fmt0 is_in_cooldown_code
        ⟨90, 0, 0, 0, 0, 0, 0, 0⟩ 20 []).action = "no_action" ∧
    defaultScaleConfig.max_replicas = 20 := by
  constructor
  · norm_num [make_scaling_decision, cpu_utilization_check, response_time_check,
      error_rate_check, request_rate_check, cpu_trend_check, cooldown_check,
      cooldown_check_up, cooldown_check_down, finalize_decision, init_decision,
      is_in_cooldown_code, dget, defaultScaleConfig, fmt0]
  · norm_num [defaultScaleConfig]

/-! ## C2: the cooldown gate -/

/-- C2 (code bug): the source's `_is_in_cooldown` ignores all recorded action
timestamps and returns `False` for both directions, so `make_scaling_decision`
never vetoes anything. In particular, one second after an executed scale-up
(scale_up_cooldown = 300 s), a decision that would scale up — CPU 90%,
current replicas 5 — still comes back as `scale_up` with confidence 0.8 and a
reason that is not "Scale up action blocked by cooldown period", instead of
the `no_action` / confidence 0.9 / "blocked by cooldown" decision the claim
(and the function's own docstring and comment) describe. The elapsed time
cannot even influence the result: no timestamp reaches the gate. -/
theorem cooldown_stub_never_vetoes :
    (∀ a : String, is_in_cooldown_code a = false) ∧
    (make_scaling_decision defaultScaleConfig fmt0 is_in_cooldown_code
        ⟨90, 0, 0, 0, 0, 0, 0, 0⟩ 5 []).action = "scale_up" ∧
    (make_scaling_decision defaultScaleConfig fmt0 is_in_cooldown_code
        ⟨90, 0, 0, 0, 0, 0, 0, 0⟩ 5 []).confidence = 0.8 ∧
    (make_scaling_decision defaultScaleConfig fmt0 is_in_cooldown_code
        ⟨90, 0, 0, 0, 0, 0, 0, 0⟩ 5 []).reason
      ≠ "Scale up action blocked by cooldown period" := by
  refine ⟨fun _ => rfl, ?_, ?_, ?_⟩ <;>
    norm_num [make_scaling_decision, cpu_utilization_check, response_time_check,
      error_rate_check, request_rate_check, cpu_trend_check, cooldown_check,
      cooldown_check_up, cooldown_check_down, finalize_decision, init_decision,
      is_in_cooldown_code, dget, defaultScaleConfig, fmt0, String.intercalate] <;>
    decide

/-! ## C8: trend analysis -/

/-- A sample whose CPU utilization is 40% and whose other readings are zero. -/
def sample_cpu40 : ScalingMetrics := ⟨40, 0, 0, 0, 0, 0, 0, 0⟩

/-- A sample whose CPU utilization is 60% and whose other readings are zero. -/
def sample_cpu60 : ScalingMetrics := ⟨60, 0, 0, 0, 0, 0, 0, 1⟩

/-- C8: with fewer than 2 samples, `analyze_patterns` returns the empty dict,
so every field the engine can read from it is 0 (any `.get` comes back with
the caller's default) — and over an n-sample window each trend equals
(last value - first value) / n; in particular the 2-sample CPU window
[40, 60] yields cpu_trend = (60 - 40) / 2 = 10. -/
theorem analyze_patterns_spec (sqrtf : ℚ → ℚ) (ms : List ScalingMetrics) :
    (ms.length < 2 → analyze_patterns sqrtf ms = [] ∧
        ∀ k : String, ∀ d : ℚ, dget (analyze_patterns sqrtf ms) k d = d) ∧
    (2 ≤ ms.length →
        dget (analyze_patterns sqrtf ms) "cpu_trend" 0 =
          (ms.getLastI.cpu_utilization - ms.headI.cpu_utilization) / ms.length ∧
        dget (analyze_patterns sqrtf ms) "request_trend" 0 =
          (ms.getLastI.request_rate - ms.headI.request_rate) / ms.length ∧
        dget (analyze_patterns sqrtf ms) "response_time_trend" 0 =
          (ms.getLastI.response_time_p95 - ms.headI.response_time_p95) / ms.length) ∧
    dget (analyze_patterns sqrtf [sample_cpu40, sample_cpu60]) "cpu_trend" 0 = 10 := by
  refine ⟨fun h => ?_, fun h => ?_, ?_⟩
  · have he : analyze_patterns sqrtf ms = [] := by
      unfold analyze_patterns
      rw [if_pos h]
    exact ⟨he, fun k d => by rw [he]; rfl⟩
  · unfold analyze_patterns
    rw [if_neg (by omega)]
    exact ⟨rfl, rfl, rfl⟩
  · norm_num [analyze_patterns, dget, sample_cpu40, sample_cpu60, List.getLastI,
      List.headI]

/-- Witness for C8 at concrete inputs: a single-sample window gives the empty
dict (all lookups fall back to the default), and the window [cpu 40, cpu 60]
gives cpu_trend 10. -/
theorem analyze_patterns_spec_witness :
    (analyze_patterns sqrtf0 [sample_cpu40] = [] ∧
      ∀ k : String, ∀ d : ℚ, dget (analyze_patterns sqrtf0 [sample_cpu40]) k d = d) ∧
    dget (analyze_patterns sqrtf0 [sample_cpu40, sample_cpu60]) "cpu_trend" 0 = 10 :=
  ⟨(analyze_patterns_spec sqrtf0 [sample_cpu40]).1 (by norm_num),
   (analyze_patterns_spec sqrtf0 [sample_cpu40, sample_cpu60]).2.2⟩

/-! ## C9: configuration loading -/

/-- C9 (amended): `load_configuration` performs no validation of the loaded
values: any parsed configuration is accepted, each provided entry replacing
its default verbatim — thresholds and replica bounds are neither checked,
rejected nor clamped. Only an unreadable or unparsable configuration file is
fatal (`sys.exit(1)`, the error outcome). -/
theorem load_configuration_never_validates (p : ScaleConfigPatch) (e : String) :
    load_configuration (some (.ok p)) = .ok (applyScalePatch defaultScaleConfig p) ∧
    (applyScalePatch defaultScaleConfig p).min_replicas = p.min_replicas.getD 3 ∧
    (applyScalePatch defaultScaleConfig p).max_replicas = p.max_replicas.getD 20 ∧
    (applyScalePatch defaultScaleConfig p).scale_up_threshold
      = p.scale_up_threshold.getD 70 ∧
    (applyScalePatch defaultScaleConfig p).scale_down_threshold
      = p.scale_down_threshold.getD 30 ∧
    load_configuration none = .ok defaultScaleConfig ∧
    load_configuration (some (.error e)) = .error e :=
  ⟨rfl, rfl, rfl, rfl, rfl, rfl, rfl⟩

/-- C9 counterexample: a configuration with `min_replicas = 10 >
max_replicas = 2` and `scale_up_threshold = 20 < scale_down_threshold = 30`
is NOT rejected at startup: loading succeeds and the invalid values are kept
as-is (neither error nor clamping). -/
theorem load_configuration_accepts_invalid_bounds :
    ∃ cfg : ScaleConfig,
      load_configuration (some (.ok
        { min_replicas := some 10, max_replicas := some 2,
          scale_up_threshold := some 20 })) = .ok cfg ∧
      cfg.min_replicas = 10 ∧ cfg.max_replicas = 2 ∧
      cfg.scale_up_threshold = 20 ∧ cfg.scale_down_threshold = 30 ∧
      cfg.min_replicas > cfg.max_replicas ∧
      cfg.scale_up_threshold < cfg.scale_down_threshold := by
  refine ⟨applyScalePatch defaultScaleConfig
    { min_replicas := some 10, max_replicas := some 2,
      scale_up_threshold := some 20 }, rfl, rfl, rfl, rfl, rfl, ?_, ?_⟩ <;>
    norm_num [applyScalePatch, defaultScaleConfig]

/-! ## C3: cluster status with an unreachable primary -/

/-- Early-return behavior of `get_cluster_status` (redis-cluster-manager.py,
lines 232-242): a disconnected master short-circuits into the empty unhealthy
status. -/
theorem get_cluster_status_of_disconnected (cfg : RedisConfig) (host : String)
    (master : RedisNodeInfo) (replicas : List RedisNodeInfo)
    (h : master.connected = false) :
    get_cluster_status cfg host master replicas =
      { master_host := "", master_port := 0, replicas := [], total_memory := 0,
        total_connections := 0, is_healthy := false, failover_needed := true } := by
  unfold get_cluster_status
  rw [h]
  rfl

/-- C3 (amended): when the primary is unreachable, `get_cluster_status`
returns early with `is_healthy = false` and `failover_needed = true`, but
with an EMPTY replica list (and blank master host/port): the replica
endpoints are not polled and their telemetry is dropped, regardless of how
many healthy replicas exist. -/
theorem cluster_status_master_down (cfg : RedisConfig) (host : String)
    (master : RedisNodeInfo) (replicas : List RedisNodeInfo)
    (h : master.connected = false) :
    get_cluster_status cfg host master replicas =
      { master_host := "", master_port := 0, replicas := [], total_memory := 0,
        total_connections := 0, is_healthy := false, failover_needed := true } :=
  get_cluster_status_of_disconnected cfg host master replicas h

/-- Witness for the amended C3 at a concrete input: an unreachable primary
(telemetry shape produced by `get_node_info`, lines 170-178) and two healthy
replicas. -/
theorem cluster_status_master_down_witness :
    get_cluster_status defaultRedisConfig "10.0.0.1"
      ⟨"10.0.0.1", 6379, "unknown", false, 0, 0, 0, 0, none⟩
      [⟨"10.0.0.2", 6379, "slave", true, 40, 0, 10, 1, some 0⟩,
       ⟨"10.0.0.3", 6379, "slave", true, 45, 0, 12, 2, some 0⟩] =
      { master_host := "", master_port := 0, replicas := [], total_memory := 0,
        total_connections := 0, is_healthy := false, failover_needed := true } :=
  cluster_status_master_down defaultRedisConfig "10.0.0.1"
    ⟨"10.0.0.1", 6379, "unknown", false, 0, 0, 0, 0, none⟩
    [⟨"10.0.0.2", 6379, "slave", true, 40, 0, 10, 1, some 0⟩,
     ⟨"10.0.0.3", 6379, "slave", true, 45, 0, 12, 2, some 0⟩] rfl

/-- C3 counterexample: the claim as stated fails. With an unreachable primary
and two healthy replicas the returned `ClusterStatus` does report
`is_healthy = false` and `failover_needed = true`, but its replica list has
length 0, not 2 — the replicas' telemetry is omitted under this partial
connectivity loss. -/
theorem cluster_status_drops_replica_telemetry :
    (get_cluster_status defaultRedisConfig "10.0.0.1"
      ⟨"10.0.0.1", 6379, "unknown", false, 0, 0, 0, 0, none⟩
      [⟨"10.0.0.2", 6379, "slave", true, 40, 0, 10, 1, some 0⟩,
       ⟨"10.0.0.3", 6379, "slave", true, 45, 0, 12, 2, some 0⟩]).is_healthy = false ∧
    (get_cluster_status defaultRedisConfig "10.0.0.1"
      ⟨"10.0.0.1", 6379, "unknown", false, 0, 0, 0, 0, none⟩
      [⟨"10.0.0.2", 6379, "slave", true, 40, 0, 10, 1, some 0⟩,
       ⟨"10.0.0.3", 6379, "slave", true, 45, 0, 12, 2, some 0⟩]).failover_needed = true ∧
    (get_cluster_status defaultRedisConfig "10.0.0.1"
      ⟨"10.0.0.1", 6379, "unknown", false, 0, 0, 0, 0, none⟩
      [⟨"10.0.0.2", 6379, "slave", true, 40, 0, 10, 1, some 0⟩,
       ⟨"10.0.0.3", 6379, "slave", true, 45, 0, 12, 2, some 0⟩]).replicas.length = 0 ∧
    (0 : ℕ) ≠ 2 :=
  ⟨rfl, rfl, rfl, by omega⟩

/-! ## C5: the failover-needed conditions -/

/-- Method `_check_failover_needed` returns true exactly under the four documented
conditions. -/
theorem check_failover_needed_iff (cfg : RedisConfig) (master : RedisNodeInfo)
    (replicas : List RedisNodeInfo) :
    check_failover_needed cfg master replicas = true ↔
      master.connected = false ∨
      (∃ r ∈ replicas, r.connected = true ∧ cfg.replication_lag_threshold < r.lag) ∨
      (cfg.memory_threshold < master.memory_usage ∧ ∃ r ∈ replicas, r.connected = true) ∨
      (cfg.connection_threshold < master.connections ∧
        0 < ((replicas.filter (fun r => r.connected)).map (fun r => r.connections)).sum) := by
  unfold check_failover_needed
  split_ifs with h1 h2 h3 h4 <;>
    simp_all [List.any_eq_true, List.length_pos_iff_exists_mem, List.mem_filter]

/-- C5: `failover_needed` in the status produced by `get_cluster_status` is
true exactly when (a) the primary is unreachable, (b) some connected replica's
lag exceeds the replication lag threshold, (c) primary memory usage exceeds
the memory threshold and at least one replica is connected, or (d) primary
connections exceed the connection threshold and the connected replicas'
summed connection count is positive; and `is_healthy` equals
primary.connected AND NOT failover_needed. -/
theorem cluster_failover_conditions (cfg : RedisConfig) (host : String)
    (master : RedisNodeInfo) (replicas : List RedisNodeInfo) :
    ((get_cluster_status cfg host master replicas).failover_needed = true ↔
      master.connected = false ∨
      (∃ r ∈ replicas, r.connected = true ∧ cfg.replication_lag_threshold < r.lag) ∨
      (cfg.memory_threshold < master.memory_usage ∧ ∃ r ∈ replicas, r.connected = true) ∨
      (cfg.connection_threshold < master.connections ∧
        0 < ((replicas.filter (fun r => r.connected)).map (fun r => r.connections)).sum)) ∧
    (get_cluster_status cfg host master replicas).is_healthy =
      (master.connected &&
        !(get_cluster_status cfg host master replicas).failover_needed) := by
  by_cases hm : master.connected
  · constructor
    · rw [show (get_cluster_status cfg host master replicas).failover_needed
          = check_failover_needed cfg master replicas by
            unfold get_cluster_status; rw [hm]; rfl]
      rw [check_failover_needed_iff]
    · unfold get_cluster_status
      rw [hm]
      rfl
  · have hm' : master.connected = false := by simp_all
    constructor
    · rw [get_cluster_status_of_disconnected cfg host master replicas hm']
      simp [hm']
    · rw [get_cluster_status_of_disconnected cfg host master replicas hm']
      simp [hm']

/-! ## C4: the failover selector -/

theorem node_key_le_rfl (a : RedisNodeInfo) : node_key_le a a :=
  Or.inr ⟨rfl, le_refl _⟩

theorem node_key_le_of_lt {a b : RedisNodeInfo} (h : node_key_lt a b) :
    node_key_le a b := by
  unfold node_key_lt at h
  unfold node_key_le
  rcases h with h | ⟨h1, h2⟩
  · exact Or.inl h
  · exact Or.inr ⟨h1, le_of_lt h2⟩

theorem node_key_le_of_not_lt {a b : RedisNodeInfo} (h : ¬ node_key_lt a b) :
    node_key_le b a := by
  unfold node_key_lt at h
  unfold node_key_le
  push_neg at h
  obtain ⟨h1, h2⟩ := h
  rcases lt_trichotomy b.lag a.lag with hl | hl | hl
  · exact Or.inl hl
  · exact Or.inr ⟨hl, h2 hl.symm⟩
  · omega

theorem node_key_le_trans {a b c : RedisNodeInfo}
    (hab : node_key_le a b) (hbc : node_key_le b c) : node_key_le a c := by
  unfold node_key_le at hab hbc ⊢
  rcases hab with h | ⟨h1, h2⟩ <;> rcases hbc with g | ⟨g1, g2⟩
  · exact Or.inl (lt_trans h g)
  · exact Or.inl (g1 ▸ h)
  · exact Or.inl (h1 ▸ g)
  · exact Or.inr ⟨h1.trans g1, le_trans h2 g2⟩

theorem foldl_pick_candidate_mem (t : List RedisNodeInfo) :
    ∀ h : RedisNodeInfo, t.foldl pick_candidate h ∈ h :: t := by
  induction t with
  | nil => intro h; simp [List.foldl]
  | cons a t ih =>
    intro h
    simp only [List.foldl]
    unfold pick_candidate
    split_ifs with hlt
    · have := ih a
      simp only [List.mem_cons] at this ⊢
      tauto
    · have := ih h
      simp only [List.mem_cons] at this ⊢
      tauto

theorem foldl_pick_candidate_le (t : List RedisNodeInfo) :
    ∀ h : RedisNodeInfo, ∀ x ∈ h :: t, node_key_le (t.foldl pick_candidate h) x := by
  induction t with
  | nil =>
    intro h x hx
    simp at hx
    subst hx
    exact node_key_le_rfl x
  | cons a t ih =>
    intro h x hx
    simp only [List.foldl]
    unfold pick_candidate
    split_ifs with hlt
    · rcases List.mem_cons.mp hx with hxh | hx'
      · rw [hxh]
        exact node_key_le_trans (ih a a (by simp)) (node_key_le_of_lt hlt)
      · exact ih a x hx'
    · rcases List.mem_cons.mp hx with hxh | hx'
      · rw [hxh]
        exact ih h h (by simp)
      · rcases List.mem_cons.mp hx' with hxa | hxt
        · rw [hxa]
          exact node_key_le_trans (ih h h (by simp)) (node_key_le_of_not_lt hlt)
        · exact ih h x (List.mem_cons.mpr (Or.inr hxt))

/-- Candidate A of the specification's determinism example: lag 5, memory
usage 50%. -/
def nodeA : RedisNodeInfo := ⟨"replica-a", 6379, "slave", true, 50, 0, 0, 5, none⟩

/-- Candidate B of the specification's determinism example: lag 5, memory
usage 30%. -/
def nodeB : RedisNodeInfo := ⟨"replica-b", 6379, "slave", true, 30, 0, 0, 5, none⟩

/-- C4: the failover selector is total and deterministic: with no connected
candidate it returns none (no fabricated fallback); any candidate it returns
is a connected replica whose key (replication lag, memory usage) is
lexicographically minimal among the connected candidates; and on
A(lag 5, mem 50), B(lag 5, mem 30) it returns B. -/
theorem failover_selector_spec :
    select_failover_candidate [] = none ∧
    (∀ replicas : List RedisNodeInfo,
      replicas.filter (fun r => r.connected) = [] →
        select_failover_candidate replicas = none) ∧
    (∀ (replicas : List RedisNodeInfo) (r : RedisNodeInfo),
      select_failover_candidate replicas = some r →
        r ∈ replicas.filter (fun n => n.connected) ∧
        ∀ x ∈ replicas.filter (fun n => n.connected), node_key_le r x) ∧
    select_failover_candidate [nodeA, nodeB] = some nodeB := by
  refine ⟨rfl, fun replicas h => ?_, fun replicas r hr => ?_, ?_⟩
  · unfold select_failover_candidate
    rw [h]
  · unfold select_failover_candidate at hr
    rcases hfil : replicas.filter (fun n => n.connected) with _ | ⟨h0, t⟩
    · rw [hfil] at hr
      cases hr
    · rw [hfil] at hr
      have hr' : t.foldl pick_candidate h0 = r := by
        cases hr
        rfl
      constructor
      · rw [hfil, ← hr']
        exact foldl_pick_candidate_mem t h0
      · intro x hx
        rw [hfil] at hx
        rw [← hr']
        exact foldl_pick_candidate_le t h0 x hx
  · norm_num [select_failover_candidate, pick_candidate, node_key_lt, nodeA, nodeB]

/-- Witness for C4: on the concrete pair [A, B] the selected candidate B is a
connected candidate and key-minimal among them. -/
theorem failover_selector_spec_witness :
    nodeB ∈ ([nodeA, nodeB] : List RedisNodeInfo).filter (fun n => n.connected) ∧
    ∀ x ∈ ([nodeA, nodeB] : List RedisNodeInfo).filter (fun n => n.connected),
      node_key_le nodeB x :=
  failover_selector_spec.2.2.1 [nodeA, nodeB] nodeB failover_selector_spec.2.2.2

/-! ## C7: scale-up overrides scale-down; targets combine by maximum -/

/-- The scale-up targets proposed by the response-time, error-rate and
request-rate signals (signals 2-4), in source order, for one cycle: each
signal that fires proposes its own clamped target
(auto-scale-monitor.py, lines 245-277). -/
def threshold_up_proposals (cfg : ScaleConfig) (m : ScalingMetrics) (c : ℤ) : List ℤ :=
  (if m.response_time_p95 > cfg.response_time_threshold then
    [min (c + 1) cfg.max_replicas] else []) ++
  (if m.error_rate > cfg.error_rate_threshold then
    [min (c + 2) cfg.max_replicas] else []) ++
  (if m.request_rate / ((max c 1 : ℤ) : ℚ) > cfg.request_rate_threshold then
    [min (c + 2) cfg.max_replicas] else [])

/-- All scale-up targets proposed in one cycle, including the trend
amplifier's (signal 5): when the CPU trend exceeds 5, it proposes one more
replica than the largest threshold proposal, clamped to `max_replicas`
(auto-scale-monitor.py, lines 279-285). -/
def up_proposals (cfg : ScaleConfig) (m : ScalingMetrics) (c : ℤ)
    (p : List (String × ℚ)) : List ℤ :=
  threshold_up_proposals cfg m c ++
  (if dget p "cpu_trend" 0 > 5 then
    [min ((threshold_up_proposals cfg m c).foldl max c + 1) cfg.max_replicas]
   else [])

theorem mem_threshold_up_proposals (cfg : ScaleConfig) (m : ScalingMetrics)
    (c : ℤ) (t : ℤ) (ht : t ∈ threshold_up_proposals cfg m c) :
    t = min (c + 1) cfg.max_replicas ∨ t = min (c + 2) cfg.max_replicas := by
  unfold threshold_up_proposals at ht
  split_ifs at ht <;> simp_all

theorem int_foldl_max_le (l : List ℤ) :
    ∀ a : ℤ, a ≤ l.foldl max a ∧ ∀ x ∈ l, x ≤ l.foldl max a := by
  induction l with
  | nil => intro a; simp
  | cons b l ih =>
    intro a
    simp only [List.foldl_cons]
    refine ⟨le_trans (le_max_left a b) (ih (max a b)).1, fun x hx => ?_⟩
    rcases List.mem_cons.mp hx with hxb | hxl
    · rw [hxb]
      exact le_trans (le_max_right a b) (ih (max a b)).1
    · exact (ih (max a b)).2 x hxl

theorem int_foldl_max_mem (l : List ℤ) :
    ∀ a : ℤ, l.foldl max a = a ∨ l.foldl max a ∈ l := by
  induction l with
  | nil => intro a; simp
  | cons b l ih =>
    intro a
    simp only [List.foldl_cons]
    rcases ih (max a b) with h | h
    · rcases max_choice a b with hm | hm
      · exact Or.inl (h.trans hm)
      · exact Or.inr (List.mem_cons.mpr (Or.inl (h.trans hm)))
    · exact Or.inr (List.mem_cons.mpr (Or.inr h))

/-- The combined effect of signals 2-4 in a cycle where at least one of them
proposes a target above the current count: the action becomes `scale_up` and
the target becomes the maximum of the fired proposals (the fold of `max` over
them, seeded with a pending target that does not exceed the current count). -/
theorem threshold_phase (cfg : ScaleConfig) (fmt : ℚ → String) (m : ScalingMetrics)
    (c : ℤ) (s : DecState)
    (ht1 : s.decision.target_replicas ≤ c)
    (hq1 : min (c + 1) cfg.max_replicas > c)
    (hq2 : min (c + 2) cfg.max_replicas > c)
    (hfire : ∃ t ∈ threshold_up_proposals cfg m c, c < t) :
    (request_rate_check cfg fmt m c (error_rate_check cfg fmt m c
        (response_time_check cfg fmt m c s))).decision.action = "scale_up" ∧
    (request_rate_check cfg fmt m c (error_rate_check cfg fmt m c
        (response_time_check cfg fmt m c s))).decision.target_replicas =
      (threshold_up_proposals cfg m c).foldl max c := by
  by_cases hrt : m.response_time_p95 > cfg.response_time_threshold <;>
    by_cases her : m.error_rate > cfg.error_rate_threshold <;>
    by_cases hrr : m.request_rate / ((max c 1 : ℤ) : ℚ) > cfg.request_rate_threshold <;>
    [skip; skip; skip; skip; skip; skip; skip;
     (exfalso
      obtain ⟨t, ht, htc⟩ := hfire
      unfold threshold_up_proposals at ht
      rw [if_neg hrt, if_neg her, if_neg hrr] at ht
      simp at ht)] <;>
    (first
      | rw [response_time_check_fired cfg fmt m c s hrt hq1]
      | rw [response_time_check_id cfg fmt m c s hrt]) <;>
    (first
      | rw [error_rate_check_fired cfg fmt m c _ her hq2]
      | rw [error_rate_check_id cfg fmt m c _ her]) <;>
    (first
      | rw [request_rate_check_fired cfg fmt m c _ hrr hq2]
      | rw [request_rate_check_id cfg fmt m c _ hrr]) <;>
    refine ⟨by simp, ?_⟩ <;>
    unfold threshold_up_proposals <;>
    (first | rw [if_pos hrt] | rw [if_neg hrt]) <;>
    (first | rw [if_pos her] | rw [if_neg her]) <;>
    (first | rw [if_pos hrr] | rw [if_neg hrr]) <;>
    simp <;>
    omega

/-- C7: in any cycle where signal 1 votes scale_down (CPU below the
scale-down threshold, thresholds sanely ordered as the spec requires) and at
least one other signal votes scale_up with a proposed target above the
current replica count, the final action is scale_up — the scale-down vote is
overridden — and the final target is the MAXIMUM of the proposed scale-up
targets (signal 5, the trend amplifier, proposing its one-replica bump of the
largest pending target when it fires), never their sum. -/
theorem scale_up_overrides_scale_down (cfg : ScaleConfig) (fmt : ℚ → String)
    (m : ScalingMetrics) (p : List (String × ℚ)) (c : ℤ)
    (hthr : cfg.scale_down_threshold ≤ cfg.scale_up_threshold)
    (hcpu : m.cpu_utilization < cfg.scale_down_threshold)
    (hfire : ∃ t ∈ threshold_up_proposals cfg m c, c < t) :
    (make_scaling_decision cfg fmt is_in_cooldown_code m c p).action = "scale_up" ∧
    (make_scaling_decision cfg fmt is_in_cooldown_code m c p).target_replicas
        ∈ up_proposals cfg m c p ∧
    ∀ t ∈ up_proposals cfg m c p,
      t ≤ (make_scaling_decision cfg fmt is_in_cooldown_code m c p).target_replicas := by
  have hmax : c < cfg.max_replicas := by
    obtain ⟨t, ht, htc⟩ := hfire
    rcases mem_threshold_up_proposals cfg m c t ht with h | h <;> omega
  have hq1 : min (c + 1) cfg.max_replicas > c := by omega
  have hq2 : min (c + 2) cfg.max_replicas > c := by omega
  have hnotup : ¬ m.cpu_utilization > cfg.scale_up_threshold :=
    not_lt.mpr (le_of_lt (lt_of_lt_of_le hcpu hthr))
  have ht1 : (cpu_utilization_check cfg fmt m c
      { decision := init_decision c, reasons := [], metrics_used := [],
        confidence_factors := [] }).decision.target_replicas ≤ c := by
    rw [cpu_utilization_check_decision]
    rw [if_neg hnotup, if_pos hcpu]
    split_ifs with h <;> simp [init_decision] <;> omega
  obtain ⟨hact, htgt⟩ := threshold_phase cfg fmt m c
    (cpu_utilization_check cfg fmt m c
      { decision := init_decision c, reasons := [], metrics_used := [],
        confidence_factors := [] }) ht1 hq1 hq2 hfire
  have hBle : ∀ t ∈ threshold_up_proposals cfg m c,
      t ≤ (threshold_up_proposals cfg m c).foldl max c :=
    (int_foldl_max_le (threshold_up_proposals cfg m c) c).2
  have hBc : c < (threshold_up_proposals cfg m c).foldl max c := by
    obtain ⟨t, ht, htc⟩ := hfire
    have := hBle t ht
    omega
  have hBmem : (threshold_up_proposals cfg m c).foldl max c
      ∈ threshold_up_proposals cfg m c := by
    rcases int_foldl_max_mem (threshold_up_proposals cfg m c) c with h | h
    · omega
    · exact h
  have hBub : (threshold_up_proposals cfg m c).foldl max c ≤ cfg.max_replicas := by
    rcases mem_threshold_up_proposals cfg m c _ hBmem with h | h <;> omega
  unfold make_scaling_decision
  rw [cooldown_check_code, finalize_decision_action, finalize_decision_target]
  by_cases htr : dget p "cpu_trend" 0 > 5
  · rw [cpu_trend_check_fired cfg p _ htr hact]
    refine ⟨by simpa using hact, ?_, ?_⟩
    · unfold up_proposals
      rw [if_pos htr]
      apply List.mem_append_right
      simp [htgt]
    · intro t htmem
      unfold up_proposals at htmem
      rw [if_pos htr] at htmem
      rcases List.mem_append.mp htmem with h | h
      · have := hBle t h
        simp [htgt]
        omega
      · simp only [List.mem_singleton] at h
        simp [htgt, h]
  · rw [cpu_trend_check_id cfg p _ htr]
    refine ⟨hact, ?_, ?_⟩
    · unfold up_proposals
      rw [if_neg htr]
      simpa [htgt] using hBmem
    · intro t htmem
      unfold up_proposals at htmem
      rw [if_neg htr] at htmem
      simp only [List.append_nil] at htmem
      rw [htgt]
      exact hBle t htmem

/-- Witness for C7 at a concrete input: default config, CPU 10% (signal 1
votes scale_down), error rate 10% (signal 3 votes scale_up with target 7 > 5
current replicas), CPU trend 10 (signal 5 fires): the decision is scale_up
and its target is the maximum of the proposed targets. -/
theorem scale_up_overrides_scale_down_witness :
    (make_scaling_decision defaultScaleConfig fmt0 is_in_cooldown_code
        ⟨10, 0, 0, 0, 10, 0, 0, 0⟩ 5 [("cpu_trend", 10)]).action = "scale_up" ∧
    (make_scaling_decision defaultScaleConfig fmt0 is_in_cooldown_code
        ⟨10, 0, 0, 0, 10, 0, 0, 0⟩ 5 [("cpu_trend", 10)]).target_replicas
      ∈ up_proposals defaultScaleConfig ⟨10, 0, 0, 0, 10, 0, 0, 0⟩ 5 [("cpu_trend", 10)] ∧
    ∀ t ∈ up_proposals defaultScaleConfig ⟨10, 0, 0, 0, 10, 0, 0, 0⟩ 5 [("cpu_trend", 10)],
      t ≤ (make_scaling_decision defaultScaleConfig fmt0 is_in_cooldown_code
        ⟨10, 0, 0, 0, 10, 0, 0, 0⟩ 5 [("cpu_trend", 10)]).target_replicas :=
  scale_up_overrides_scale_down defaultScaleConfig fmt0 ⟨10, 0, 0, 0, 10, 0, 0, 0⟩
    [("cpu_trend", 10)] 5
    (by norm_num [defaultScaleConfig])
    (by norm_num [defaultScaleConfig])
    ⟨7, by norm_num [threshold_up_proposals, defaultScaleConfig], by norm_num⟩
